import Mathlib

/-
Verification of the nonholonomic-boat demo kernel: two discrete-time dynamics
models, an LQR-style gain-scheduled policy, a heading-aware error metric, a
footprint collision predicate, a biased sampler, and the closed-loop tracking
simulator.  States and controls are real vectors (Fin n → ℝ); the numpy code
is embedded componentwise.
-/

noncomputable section

/-! ### Model A (planning model) physical parameters -/

/-- Mass (kg) for the planning model. -/
def mA : ℝ := 500

/-- Rotational inertia (kg·m²) for the planning model. -/
def iA : ℝ := 500

/-- invM = [1/m, 1/I]. -/
def invM : Fin 2 → ℝ := ![1 / mA, 1 / iA]

/-- Axis-aligned top speeds vel_max = [1.1, 0.2]. -/
def vel_max : Fin 2 → ℝ := ![11 / 10, 1 / 5]

/-- Maximum thrust (N). -/
def thrust_max : ℝ := 220

/-- Thrust lever arm (m), 2.15. -/
def thrust_lever : ℝ := 43 / 20

/-- u_max = [2·√2·thrust_max, 4·thrust_lever·thrust_max]. -/
def u_max : Fin 2 → ℝ := ![2 * Real.sqrt 2 * thrust_max, 4 * thrust_lever * thrust_max]

/-- Linear drag coefficients D = |u_max / vel_max|. -/
def D_A : Fin 2 → ℝ := fun i => |u_max i / vel_max i|

/-! ### Model A dynamics -/

/-- Actuator saturation of Model A: np.clip(u, [-u_max[0]/10, -u_max[1]], u_max),
componentwise min (max u lo) hi. -/
def satA (u : Fin 2 → ℝ) : Fin 2 → ℝ :=
  ![min (max (u 0) (-u_max 0 / 10)) (u_max 0),
    min (max (u 1) (-u_max 1)) (u_max 1)]

/-- State derivative of Model A given the (already saturated) wrench us:
xdot = [cos(h)·v, sin(h)·v, yawrate, invM·(us − D·v)]. -/
def xdotA (x : Fin 5 → ℝ) (us : Fin 2 → ℝ) : Fin 5 → ℝ :=
  ![Real.cos (x 2) * x 3,
    Real.sin (x 2) * x 3,
    x 4,
    invM 0 * (us 0 - D_A 0 * x 3),
    invM 1 * (us 1 - D_A 1 * x 4)]

/-- First-order integration xnext = x + xdot·dt, with the saturated control. -/
def integrateA (x : Fin 5 → ℝ) (u : Fin 2 → ℝ) (dt : ℝ) : Fin 5 → ℝ :=
  fun i => x i + xdotA x (satA u) i * dt

/-- Model A step: integrate, then clamp the forward-speed channel (index 3)
to zero if it came out negative. -/
def dynamicsA (x : Fin 5 → ℝ) (u : Fin 2 → ℝ) (dt : ℝ) : Fin 5 → ℝ :=
  if integrateA x u dt 3 < 0 then Function.update (integrateA x u dt) 3 0
  else integrateA x u dt

/-! ### Error metric -/

/-- Two-argument arctangent with range (−π, π], the convention of the math
library used by the source: atan2 y x is the argument of the complex number
x + y·i. -/
def atan2 (y x : ℝ) : ℝ := Complex.arg ⟨x, y⟩

/-- Error metric of the source (5-dimensional use): plain subtraction on all
channels, except the heading channel which is atan2(sg·c − cg·s, cg·c + sg·s)
where c, s, sg are cos/sin of the current heading and the goal heading — and
cg is computed from the heading of the CURRENT state in the source (the line
cg = np.cos(x[2])), not from the goal heading. -/
def erf (xgoal x : Fin 5 → ℝ) : Fin 5 → ℝ :=
  Function.update (fun i => xgoal i - x i) 2
    (atan2 (Real.sin (xgoal 2) * Real.cos (x 2) - Real.cos (x 2) * Real.sin (x 2))
           (Real.cos (x 2) * Real.cos (x 2) + Real.sin (xgoal 2) * Real.sin (x 2)))

/-- Modelled from the spec: the shortest signed angular difference between a
goal heading and a current heading, guaranteed to lie in (−π, π]. -/
def angleDiffSpec (g x : ℝ) : ℝ := atan2 (Real.sin (g - x)) (Real.cos (g - x))

/-! ### Control policy matrices -/

/-- Horizontal concatenation of an m×p and an m×q matrix into an m×(p+q) one
(np.hstack in the source). -/
def hstack {m p q : ℕ} (A : Matrix (Fin m) (Fin p) ℝ) (B : Matrix (Fin m) (Fin q) ℝ) :
    Matrix (Fin m) (Fin (p + q)) ℝ :=
  (Matrix.fromColumns A B).submatrix id finSumFinEquiv.symm

/-- Body-frame proportional gains of Model A, kp = diag(120, 600). -/
def kpA : Matrix (Fin 2) (Fin 2) ℝ := Matrix.diagonal ![120, 600]

/-- Body-frame derivative gains of Model A, kd = diag(120, 600). -/
def kdA : Matrix (Fin 2) (Fin 2) ℝ := Matrix.diagonal ![120, 600]

/-- First and third rows of Rᵀ for Model A. -/
def w2b (x : Fin 5 → ℝ) : Matrix (Fin 2) (Fin 3) ℝ :=
  Matrix.of ![![Real.cos (x 2), Real.sin (x 2), 0], ![0, 0, 1]]

/-- Model A policy: S = diag(1, 1, 0.1, 0.01, 0.001) and K = hstack(kp·w2b, kd). -/
def lqrA (x : Fin 5 → ℝ) :
    Matrix (Fin 5) (Fin 5) ℝ × Matrix (Fin 2) (Fin 5) ℝ :=
  (Matrix.diagonal ![1, 1, 1 / 10, 1 / 100, 1 / 1000], hstack (kpA * w2b x) kdA)

/-- Body-frame proportional gains of Model B, kp = diag(120, 120, 300). -/
def kpB : Matrix (Fin 3) (Fin 3) ℝ := Matrix.diagonal ![120, 120, 300]

/-- Body-frame derivative gains of Model B, kd = diag(120, 120, 200). -/
def kdB : Matrix (Fin 3) (Fin 3) ℝ := Matrix.diagonal ![120, 120, 200]

/-- Rotation matrix (body to world) built from the heading channel of a
Model B state. -/
def RB (x : Fin 6 → ℝ) : Matrix (Fin 3) (Fin 3) ℝ :=
  Matrix.of ![![Real.cos (x 2), -Real.sin (x 2), 0],
              ![Real.sin (x 2), Real.cos (x 2), 0],
              ![0, 0, 1]]

/-- Model B policy: S = diag(1, 1, 0, 0.05, 0.05, 0) and K = hstack(kp·Rᵀ, kd). -/
def lqrB (x : Fin 6 → ℝ) :
    Matrix (Fin 6) (Fin 6) ℝ × Matrix (Fin 3) (Fin 6) ℝ :=
  (Matrix.diagonal ![1, 1, 0, 1 / 20, 1 / 20, 0], hstack (kpB * (RB x).transpose) kdB)

/-! ### Model B (ground-truth) physical parameters and dynamics -/

/-- invM = [1/m, 1/m, 1/I] for the ground-truth model. -/
def invMB : Fin 3 → ℝ := ![1 / 500, 1 / 500, 1 / 500]

/-- Top speeds for positive body-frame motion, [1.1, 0.45, 0.2]. -/
def vel_pos : Fin 3 → ℝ := ![11 / 10, 9 / 20, 1 / 5]

/-- Top speeds for negative body-frame motion, [−0.68, −0.45, −0.2]. -/
def vel_neg : Fin 3 → ℝ := ![-(17 / 25), -(9 / 20), -(1 / 5)]

/-- u_max = [2·√2·220, 2·√2·220, 4·2.15·220] for the ground-truth model. -/
def u_maxB : Fin 3 → ℝ :=
  ![2 * Real.sqrt 2 * thrust_max, 2 * Real.sqrt 2 * thrust_max,
    4 * thrust_lever * thrust_max]

/-- D_pos = |u_max / vel_pos|. -/
def D_pos : Fin 3 → ℝ := fun i => |u_maxB i / vel_pos i|

/-- D_neg = |u_max / vel_neg|. -/
def D_neg : Fin 3 → ℝ := fun i => |u_maxB i / vel_neg i|

/-- Drag coefficients chosen from the signs of the body-frame velocity
channels at the start of the step: D_pos where v ≥ 0, D_neg otherwise. -/
def DB (x : Fin 6 → ℝ) : Fin 3 → ℝ :=
  fun i => if 0 ≤ ![x 3, x 4, x 5] i then D_pos i else D_neg i

/-- Symmetric actuator saturation of Model B: any component whose magnitude
exceeds u_max is replaced by u_max·sign(u). -/
def satB (u : Fin 3 → ℝ) : Fin 3 → ℝ :=
  fun i => if u_maxB i < |u i| then u_maxB i * Real.sign (u i) else u i

/-- Models the contents of the control array of the caller after a Model B
dynamics call returns: the source writes the saturated values back into u
componentwise, in place. -/
def uAfterB (u : Fin 3 → ℝ) : Fin 3 → ℝ := satB u

/-- State derivative of Model B given the (already saturated) wrench us:
xdot = [R·v, invM·(us − D·v)]. -/
def xdotB (x : Fin 6 → ℝ) (us : Fin 3 → ℝ) : Fin 6 → ℝ :=
  ![Real.cos (x 2) * x 3 - Real.sin (x 2) * x 4,
    Real.sin (x 2) * x 3 + Real.cos (x 2) * x 4,
    x 5,
    invMB 0 * (us 0 - DB x 0 * x 3),
    invMB 1 * (us 1 - DB x 1 * x 4),
    invMB 2 * (us 2 - DB x 2 * x 5)]

/-- Model B step: first-order integration, no post-integration clamp. -/
def dynamicsB (x : Fin 6 → ℝ) (u : Fin 3 → ℝ) (dt : ℝ) : Fin 6 → ℝ :=
  fun i => x i + xdotB x (satB u) i * dt

/-! ### Closed-loop tracking simulator -/

/-- The 6-dimensional error metric used by the simulation loop: the erf of the
source applied to ground-truth states (same formula as erf, including cg being
taken from the heading of the current state). -/
def erfB (xgoal x : Fin 6 → ℝ) : Fin 6 → ℝ :=
  Function.update (fun i => xgoal i - x i) 2
    (atan2 (Real.sin (xgoal 2) * Real.cos (x 2) - Real.cos (x 2) * Real.sin (x 2))
           (Real.cos (x 2) * Real.cos (x 2) + Real.sin (xgoal 2) * Real.sin (x 2)))

/-- Reference state mapping of the simulation loop:
xref = [xplan 0, xplan 1, xplan 2, xplan 3, 0, xplan 4]. -/
def embedState (xp : Fin 5 → ℝ) : Fin 6 → ℝ := ![xp 0, xp 1, xp 2, xp 3, 0, xp 4]

/-- Reference effort mapping of the simulation loop: uref = [uplan 0, 0, uplan 1]. -/
def embedEffort (up : Fin 2 → ℝ) : Fin 3 → ℝ := ![up 0, 0, up 1]

/-- Applied control of the simulation loop:
u = lqr(x).K · erf(xref, x) + uref, with K evaluated at the true state x. -/
def uApplied (x : Fin 6 → ℝ) (xp : Fin 5 → ℝ) (up : Fin 2 → ℝ) : Fin 3 → ℝ :=
  (lqrB x).2.mulVec (erfB (embedState xp) x) + embedEffort up

/-- The simulation loop: the recorded true state at step i, starting from x0,
where traj i is the (reference state, reference effort) pair the planner
returns when queried at step i; each step applies uApplied and the
ground-truth dynamics. -/
def simulate (traj : ℕ → (Fin 5 → ℝ) × (Fin 2 → ℝ)) (x0 : Fin 6 → ℝ) (dt : ℝ) :
    ℕ → Fin 6 → ℝ
  | 0 => x0
  | i + 1 =>
      dynamicsB (simulate traj x0 dt i)
        (uApplied (simulate traj x0 dt i) (traj i).1 (traj i).2) dt

/-! ### Feasibility checker -/

/-- A circular obstacle: center (cx, cy) and radius r. -/
structure Obstacle where
  cx : ℝ
  cy : ℝ
  r : ℝ

/-- Body-frame footprint sample points: the mgrid over
[−(6+2)/2, (6+2)/2] × [−(3+2)/2, (3+2)/2] with spacing 1, i.e.
x ∈ {−4, …, 4} and y ∈ {−2.5, …, 2.5}. -/
def vps : List (ℝ × ℝ) :=
  (List.range 9).flatMap fun (i : ℕ) => (List.range 6).map fun (j : ℕ) =>
    ((-4 : ℝ) + (i : ℝ), -(5 / 2) + (j : ℝ))

/-- World-frame sample points of is_feasible in the source: the footprint
rotated by the heading of the state — the source does not add the (x, y)
position of the state to the rotated points — with the bare position appended. -/
def verts (x : Fin 5 → ℝ) : List (ℝ × ℝ) :=
  (vps.map fun p =>
    (Real.cos (x 2) * p.1 - Real.sin (x 2) * p.2,
     Real.sin (x 2) * p.1 + Real.cos (x 2) * p.2)) ++ [(x 0, x 1)]

/-- Hard-constraint predicate of the source: feasible when every sample point
is strictly farther than 2·radius from every obstacle center; the control
argument is unused. -/
def is_feasible (obs : List Obstacle) (x : Fin 5 → ℝ) (u : Fin 2 → ℝ) : Prop :=
  ∀ ob ∈ obs, ∀ v ∈ verts x,
    ¬ (Real.sqrt ((v.1 - ob.cx) ^ 2 + (v.2 - ob.cy) ^ 2) ≤ 2 * ob.r)

/-- Modelled from the spec: world-frame sample points with the rotated
footprint additionally translated by the (x, y) position of the state, and the
bare position appended. -/
def verts_spec (x : Fin 5 → ℝ) : List (ℝ × ℝ) :=
  (vps.map fun p =>
    (Real.cos (x 2) * p.1 - Real.sin (x 2) * p.2 + x 0,
     Real.sin (x 2) * p.1 + Real.cos (x 2) * p.2 + x 1)) ++ [(x 0, x 1)]

/-- Modelled from the spec: the feasibility predicate over the translated
footprint. -/
def is_feasible_spec (obs : List Obstacle) (x : Fin 5 → ℝ) (u : Fin 2 → ℝ) : Prop :=
  ∀ ob ∈ obs, ∀ v ∈ verts_spec x,
    ¬ (Real.sqrt ((v.1 - ob.cx) ^ 2 + (v.2 - ob.cy) ^ 2) ≤ 2 * ob.r)

/-- Obstacle of the C3 failing input: center (107, 0), radius 2. -/
def obC3 : Obstacle := ⟨107, 0, 2⟩

/-- State of the C3 failing input: position (100, 0), heading 0, at rest. -/
def xC3 : Fin 5 → ℝ := ![100, 0, 0, 0, 0]

/-- Control of the C3 failing input. -/
def uC3 : Fin 2 → ℝ := fun _ => 0

/-! ### Biased sampling heuristic -/

/-- Degrees to radians, np.deg2rad. -/
def deg2rad (d : ℝ) : ℝ := d * Real.pi / 180

/-- The sampler of the source, with every random draw an explicit argument:
pgoal is the goal held by the planner, g the module-level goal, x0 the nominal
start, sbSpans/sbOffsets the search-buffer spans and offsets, bias the
per-channel goal-snap probabilities, draws the uniform [0,1) draws of the base
sample, r the single uniform draw compared against every bias entry, noise the
standard normal draw of the heading bias, and closest the tree state of
minimum cost-to-go to the goal.  The base sample is
goal + span·(draw − 0.5) + offset; each channel with bias > r is snapped to
the goal; then the heading channel is unconditionally overwritten with the
bearing from closest to g plus 30°·noise. -/
def xrand_gen (pgoal g x0 sbSpans sbOffsets bias draws : Fin 5 → ℝ)
    (r noise : ℝ) (closest : Fin 5 → ℝ) : Fin 5 → ℝ :=
  Function.update
    (fun i =>
      if r < bias i then pgoal i
      else pgoal i + (2 * |pgoal i - x0 i| + sbSpans i) * (draws i - 1 / 2) + sbOffsets i)
    2
    (atan2 (g 1 - closest 1) (g 0 - closest 0) + deg2rad 30 * noise)

/-! ### Concrete inputs for counterexamples and witnesses -/

/-- Goal used by the C7 theorems. -/
def pgoalC7 : Fin 5 → ℝ := fun _ => 5

/-- Module-level goal used by the C7 counterexample (bearing source). -/
def gC7 : Fin 5 → ℝ := ![1, 0, 0, 0, 0]

/-- Zero vector used by the C7 theorems. -/
def zero5 : Fin 5 → ℝ := fun _ => 0

/-- All-ones bias vector: every channel has goal-snap probability 1. -/
def biasC7 : Fin 5 → ℝ := fun _ => 1

/-- Planner state of the C6 counterexample: forward speed 1, at the origin. -/
def xpV : Fin 5 → ℝ := ![0, 0, 0, 1, 0]

/-- Constant trajectory used by the C6 counterexample. -/
def trajV : ℕ → (Fin 5 → ℝ) × (Fin 2 → ℝ) := fun _ => (xpV, fun _ => 0)

/-- Planner state used by the C6 witness: zero velocity channels. -/
def xpW : Fin 5 → ℝ := ![5, 7, 0, 0, 0]

/-- Constant trajectory used by the C6 witness. -/
def trajW : ℕ → (Fin 5 → ℝ) × (Fin 2 → ℝ) := fun _ => (xpW, fun _ => 0)

/-- Out-of-range control used by the C8 counterexample. -/
def uBig : Fin 3 → ℝ := ![1000, 0, 0]

/-- In-range control used by the C8 witness. -/
def uSmall : Fin 3 → ℝ := fun _ => 0

/-! ### Basic lemmas -/

lemma u_max_zero_nonneg : 0 ≤ u_max 0 := by
  show 0 ≤ 2 * Real.sqrt 2 * thrust_max
  have h := Real.sqrt_nonneg 2
  unfold thrust_max
  nlinarith

lemma u_max_one_nonneg : 0 ≤ u_max 1 := by
  show 0 ≤ 4 * thrust_lever * thrust_max
  unfold thrust_lever thrust_max
  norm_num

lemma atan2_zero_one : atan2 0 1 = 0 := by
  have h : (⟨1, 0⟩ : ℂ) = 1 := by
    apply Complex.ext <;> simp
  rw [atan2, h, Complex.arg_one]

lemma atan2_zero_zero : atan2 0 0 = 0 := by
  have h : (⟨0, 0⟩ : ℂ) = 0 := by
    apply Complex.ext <;> simp
  rw [atan2, h, Complex.arg_zero]

lemma atan2_one_zero : atan2 1 0 = Real.pi / 2 := by
  have h : (⟨0, 1⟩ : ℂ) = Complex.I := by
    apply Complex.ext <;> simp
  rw [atan2, h, Complex.arg_I]

lemma satA_bounds (u : Fin 2 → ℝ) :
    -u_max 0 / 10 ≤ satA u 0 ∧ satA u 0 ≤ u_max 0 ∧
    -u_max 1 ≤ satA u 1 ∧ satA u 1 ≤ u_max 1 := by
  have h0 := u_max_zero_nonneg
  have h1 := u_max_one_nonneg
  refine ⟨?_, ?_, ?_, ?_⟩
  · exact le_min (le_max_right _ _) (by linarith)
  · exact min_le_right _ _
  · exact le_min (le_max_right _ _) (by linarith)
  · exact min_le_right _ _

lemma satA_idem (u : Fin 2 → ℝ) : satA (satA u) = satA u := by
  obtain ⟨b0, b0u, b1, b1u⟩ := satA_bounds u
  funext i
  fin_cases i
  · show min (max (satA u 0) (-u_max 0 / 10)) (u_max 0) = satA u 0
    rw [max_eq_left b0, min_eq_left b0u]
  · show min (max (satA u 1) (-u_max 1)) (u_max 1) = satA u 1
    rw [max_eq_left b1, min_eq_left b1u]

lemma erfB_self (x : Fin 6 → ℝ) : erfB x x = 0 := by
  funext i
  by_cases h : i = (2 : Fin 6)
  · subst h
    show erfB x x 2 = 0
    unfold erfB
    rw [Function.update_same]
    have e1 : Real.sin (x 2) * Real.cos (x 2) - Real.cos (x 2) * Real.sin (x 2) = 0 := by ring
    have e2 : Real.cos (x 2) * Real.cos (x 2) + Real.sin (x 2) * Real.sin (x 2) = 1 := by
      have := Real.sin_sq_add_cos_sq (x 2)
      nlinarith
    rw [e1, e2, atan2_zero_one]
  · show erfB x x i = 0
    unfold erfB
    rw [Function.update_noteq h]
    simp

lemma u_maxB_nonneg (i : Fin 3) : 0 ≤ u_maxB i := by
  have h := Real.sqrt_nonneg 2
  fin_cases i
  · show 0 ≤ 2 * Real.sqrt 2 * thrust_max
    unfold thrust_max
    nlinarith
  · show 0 ≤ 2 * Real.sqrt 2 * thrust_max
    unfold thrust_max
    nlinarith
  · show 0 ≤ 4 * thrust_lever * thrust_max
    unfold thrust_lever thrust_max
    norm_num

lemma satB_zero : satB (fun _ => 0) = fun _ => 0 := by
  funext i
  unfold satB
  rw [if_neg]
  simp [u_maxB_nonneg i]

lemma uApplied_hold (xp : Fin 5 → ℝ) :
    uApplied (embedState xp) xp (fun _ => 0) = fun _ => 0 := by
  unfold uApplied
  rw [erfB_self, Matrix.mulVec_zero]
  funext i
  fin_cases i <;> simp [embedEffort]

lemma dynamicsB_rest (x : Fin 6 → ℝ) (dt : ℝ)
    (h3 : x 3 = 0) (h4 : x 4 = 0) (h5 : x 5 = 0) :
    dynamicsB x (fun _ => 0) dt = x := by
  have hxd : ∀ i, xdotB x (fun _ => 0) i * dt = 0 := by
    intro i
    fin_cases i
    · show (Real.cos (x 2) * x 3 - Real.sin (x 2) * x 4) * dt = 0
      rw [h3, h4]; ring
    · show (Real.sin (x 2) * x 3 + Real.cos (x 2) * x 4) * dt = 0
      rw [h3, h4]; ring
    · show x 5 * dt = 0
      rw [h5]; ring
    · show invMB 0 * (0 - DB x 0 * x 3) * dt = 0
      rw [h3]; ring
    · show invMB 1 * (0 - DB x 1 * x 4) * dt = 0
      rw [h4]; ring
    · show invMB 2 * (0 - DB x 2 * x 5) * dt = 0
      rw [h5]; ring
  funext i
  show x i + xdotB x (satB fun _ => 0) i * dt = x i
  rw [satB_zero, hxd i, add_zero]

lemma vps_mem_bounds : ∀ p ∈ vps, -4 ≤ p.1 ∧ p.1 ≤ 4 ∧ -(5 / 2) ≤ p.2 ∧ p.2 ≤ 5 / 2 := by
  intro p hp
  rw [vps, List.mem_flatMap] at hp
  obtain ⟨i, hi, hp⟩ := hp
  rw [List.mem_map] at hp
  obtain ⟨j, hj, rfl⟩ := hp
  rw [List.mem_range] at hi
  rw [List.mem_range] at hj
  have hi8 : (i : ℝ) ≤ 8 := by exact_mod_cast Nat.lt_succ_iff.mp hi
  have hj5 : (j : ℝ) ≤ 5 := by exact_mod_cast Nat.lt_succ_iff.mp hj
  have hi0 : (0 : ℝ) ≤ (i : ℝ) := Nat.cast_nonneg i
  have hj0 : (0 : ℝ) ≤ (j : ℝ) := Nat.cast_nonneg j
  refine ⟨?_, ?_, ?_, ?_⟩
  · show -4 ≤ (-4 : ℝ) + i
    linarith
  · show (-4 : ℝ) + i ≤ 4
    linarith
  · show -(5 / 2) ≤ -(5 / 2 : ℝ) + j
    linarith
  · show -(5 / 2 : ℝ) + j ≤ 5 / 2
    linarith

lemma vps_mem_pt : ((4 : ℝ), (1 / 2 : ℝ)) ∈ vps := by
  rw [vps, List.mem_flatMap]
  refine ⟨8, List.mem_range.mpr (by norm_num), List.mem_map.mpr ⟨3, ?_, ?_⟩⟩
  · exact List.mem_range.mpr (by norm_num)
  · rw [Prod.ext_iff]
    norm_num

/-! ### Claim theorems -/

/-- Claim C1: for every state, control and timestep, the forward-speed channel
of the Model A step equals the first-order integrated value clamped below at
zero: exactly zero whenever integration would be negative, the integrated
value otherwise, and in particular never negative. -/
theorem C1_forward_speed_clamp (x : Fin 5 → ℝ) (u : Fin 2 → ℝ) (dt : ℝ) :
    dynamicsA x u dt 3 = max 0 (integrateA x u dt 3) ∧ 0 ≤ dynamicsA x u dt 3 := by
  unfold dynamicsA
  by_cases h : integrateA x u dt 3 < 0
  · rw [if_pos h]
    constructor
    · rw [Function.update_same, max_eq_left h.le]
    · rw [Function.update_same]
  · rw [if_neg h]
    push_neg at h
    constructor
    · rw [max_eq_right h]
    · exact h

/-- Claim C2 at the failing input: at goal heading π and current heading π/2
the error metric of the source returns 0 on the heading channel (because it
computes cg from the heading of the current state), while the shortest signed
angular difference between the two headings is π/2; the two disagree. -/
theorem C2_heading_error_at_failing_input :
    erf ![0, 0, Real.pi, 0, 0] ![0, 0, Real.pi / 2, 0, 0] 2 = 0 ∧
    angleDiffSpec Real.pi (Real.pi / 2) = Real.pi / 2 ∧
    (0 : ℝ) ≠ Real.pi / 2 := by
  refine ⟨?_, ?_, ?_⟩
  · unfold erf
    rw [Function.update_same]
    have hg : (![0, 0, Real.pi, 0, 0] : Fin 5 → ℝ) 2 = Real.pi := rfl
    have hx : (![0, 0, Real.pi / 2, 0, 0] : Fin 5 → ℝ) 2 = Real.pi / 2 := rfl
    rw [hg, hx, Real.sin_pi, Real.cos_pi_div_two, Real.sin_pi_div_two]
    norm_num [atan2_zero_zero]
  · unfold angleDiffSpec
    have h : Real.pi - Real.pi / 2 = Real.pi / 2 := by ring
    rw [h, Real.sin_pi_div_two, Real.cos_pi_div_two, atan2_one_zero]
  · have := Real.pi_pos
    intro h
    linarith

/-- Claim C3 at the failing input: at position (100, 0) with an obstacle of
radius 2 centered at (107, 0), is_feasible in the source returns feasible —
the rotated footprint is never translated to the vehicle position, so only the
bare position is checked — while the predicate described by the claim
(footprint rotated AND translated) reports a collision, since the translated
footprint point (104, 0.5) lies within 2·radius of the obstacle. -/
theorem C3_feasibility_at_failing_input :
    is_feasible [obC3] xC3 uC3 ∧ ¬ is_feasible_spec [obC3] xC3 uC3 := by
  have hc : Real.cos (xC3 2) = 1 := by rw [show xC3 2 = 0 from rfl, Real.cos_zero]
  have hs : Real.sin (xC3 2) = 0 := by rw [show xC3 2 = 0 from rfl, Real.sin_zero]
  constructor
  · intro ob hob v hv
    rw [List.mem_singleton] at hob
    subst hob
    have hr : (2 : ℝ) * obC3.r = 4 := by norm_num [obC3]
    intro hle
    rcases List.mem_append.mp hv with hv1 | hv2
    · rcases List.mem_map.mp hv1 with ⟨p, hp, rfl⟩
      obtain ⟨hp1, hp2, hp3, hp4⟩ := vps_mem_bounds p hp
      have hgt : (4 : ℝ) <
          Real.sqrt ((Real.cos (xC3 2) * p.1 - Real.sin (xC3 2) * p.2 - obC3.cx) ^ 2 +
            (Real.sin (xC3 2) * p.1 + Real.cos (xC3 2) * p.2 - obC3.cy) ^ 2) := by
        rw [Real.lt_sqrt (by norm_num), hc, hs]
        show (4 : ℝ) ^ 2 < (1 * p.1 - 0 * p.2 - obC3.cx) ^ 2 + (0 * p.1 + 1 * p.2 - obC3.cy) ^ 2
        have hcx : obC3.cx = 107 := rfl
        have hcy : obC3.cy = 0 := rfl
        rw [hcx, hcy]
        nlinarith [sq_nonneg (p.2 - 0), sq_nonneg p.2]
      rw [hr] at hle
      exact absurd hle (not_le.mpr hgt)
    · rw [List.mem_singleton] at hv2
      subst hv2
      have hgt : (4 : ℝ) < Real.sqrt ((xC3 0 - obC3.cx) ^ 2 + (xC3 1 - obC3.cy) ^ 2) := by
        rw [Real.lt_sqrt (by norm_num)]
        show (4 : ℝ) ^ 2 < (100 - 107) ^ 2 + (0 - 0) ^ 2
        norm_num
      rw [hr] at hle
      exact absurd hle (not_le.mpr hgt)
  · intro hfeas
    have hv : (Real.cos (xC3 2) * 4 - Real.sin (xC3 2) * (1 / 2) + xC3 0,
        Real.sin (xC3 2) * 4 + Real.cos (xC3 2) * (1 / 2) + xC3 1) ∈ verts_spec xC3 :=
      List.mem_append.mpr (Or.inl (List.mem_map.mpr ⟨(4, 1 / 2), vps_mem_pt, rfl⟩))
    have hcl := hfeas obC3 (List.mem_singleton.mpr rfl) _ hv
    apply hcl
    rw [hc, hs]
    show Real.sqrt ((1 * 4 - 0 * (1 / 2) + xC3 0 - obC3.cx) ^ 2 +
        (0 * 4 + 1 * (1 / 2) + xC3 1 - obC3.cy) ^ 2) ≤ 2 * obC3.r
    have e1 : (1 * 4 - 0 * (1 / 2) + xC3 0 - obC3.cx : ℝ) = -3 := by
      show (1 * 4 - 0 * (1 / 2) + 100 - 107 : ℝ) = -3
      norm_num
    have e2 : (0 * 4 + 1 * (1 / 2) + xC3 1 - obC3.cy : ℝ) = 1 / 2 := by
      show (0 * 4 + 1 * (1 / 2) + 0 - 0 : ℝ) = 1 / 2
      norm_num
    rw [e1, e2]
    have h16 : Real.sqrt ((-3 : ℝ) ^ 2 + (1 / 2) ^ 2) ≤ Real.sqrt 16 :=
      Real.sqrt_le_sqrt (by norm_num)
    have h4 : Real.sqrt (16 : ℝ) = 4 := by
      rw [show (16 : ℝ) = 4 ^ 2 by norm_num, Real.sqrt_sq (by norm_num : (0 : ℝ) ≤ 4)]
    rw [h4] at h16
    calc Real.sqrt ((-3 : ℝ) ^ 2 + (1 / 2) ^ 2) ≤ 4 := h16
      _ ≤ 2 * obC3.r := by norm_num [obC3]

/-- Claim C4: the control used inside the Model A step is the input clipped
componentwise to [−max/10, +max] on axis 0 and [−max, +max] on axis 1, applied
before the dynamics are evaluated: the step factors through satA (so feeding
the pre-saturated control gives the identical result), satA is exactly the
stated componentwise clip, and its output lies in the stated intervals. -/
theorem C4_saturation (x : Fin 5 → ℝ) (u : Fin 2 → ℝ) (dt : ℝ) :
    dynamicsA x u dt = dynamicsA x (satA u) dt ∧
    satA u 0 = min (max (u 0) (-u_max 0 / 10)) (u_max 0) ∧
    satA u 1 = min (max (u 1) (-u_max 1)) (u_max 1) ∧
    -u_max 0 / 10 ≤ satA u 0 ∧ satA u 0 ≤ u_max 0 ∧
    -u_max 1 ≤ satA u 1 ∧ satA u 1 ≤ u_max 1 := by
  obtain ⟨b0, b0u, b1, b1u⟩ := satA_bounds u
  have hint : integrateA x (satA u) dt = integrateA x u dt := by
    unfold integrateA
    rw [satA_idem]
  refine ⟨?_, rfl, rfl, b0, b0u, b1, b1u⟩
  unfold dynamicsA
  rw [hint]

/-- Claim C5: each step of the tracking simulator maps the 5-dimensional
planner reference into 6 dimensions by inserting a zero lateral-velocity
channel (and a zero lateral effort), applies the control
K(x)·erf(xref, x) + uref with the gain evaluated at the current true state,
and advances the true state with the ground-truth Model B dynamics under that
control. -/
theorem C5_tracking_step (traj : ℕ → (Fin 5 → ℝ) × (Fin 2 → ℝ)) (x0 : Fin 6 → ℝ)
    (dt : ℝ) (i : ℕ) (x : Fin 6 → ℝ) (xp : Fin 5 → ℝ) (up : Fin 2 → ℝ) :
    embedState xp 0 = xp 0 ∧ embedState xp 1 = xp 1 ∧ embedState xp 2 = xp 2 ∧
    embedState xp 3 = xp 3 ∧ embedState xp 4 = 0 ∧ embedState xp 5 = xp 4 ∧
    embedEffort up 0 = up 0 ∧ embedEffort up 1 = 0 ∧ embedEffort up 2 = up 1 ∧
    uApplied x xp up = (lqrB x).2.mulVec (erfB (embedState xp) x) + embedEffort up ∧
    simulate traj x0 dt (i + 1) =
      dynamicsB (simulate traj x0 dt i)
        (uApplied (simulate traj x0 dt i) (traj i).1 (traj i).2) dt := by
  exact ⟨rfl, rfl, rfl, rfl, rfl, rfl, rfl, rfl, rfl, rfl, rfl⟩

/-- Claim C6 fails as stated: with the reference held at the initial state
[0, 0, 0, 1, 0] (forward speed 1) and zero effort, starting exactly at the
mapped state, a nonzero initial forward speed still moves the vehicle, so the
recorded history is not constant: after one step of size 1 the state differs. -/
theorem C6_counterexample : simulate trajV (embedState xpV) 1 1 ≠ embedState xpV := by
  intro h
  have h0 := congrFun h 0
  rw [show simulate trajV (embedState xpV) 1 1 =
      dynamicsB (embedState xpV) (uApplied (embedState xpV) xpV (fun _ => 0)) 1 from rfl,
    uApplied_hold] at h0
  unfold dynamicsB at h0
  rw [satB_zero] at h0
  simp [xdotB, embedState, xpV] at h0

/-- Claim C6 amended: if the trajectory constantly returns the initial planner
state with zero reference effort, the simulation starts exactly at the mapped
state, and the velocity channels of the initial state are zero, then the
recorded history equals the initial state at every step. -/
theorem C6_amended (traj : ℕ → (Fin 5 → ℝ) × (Fin 2 → ℝ)) (xp : Fin 5 → ℝ) (dt : ℝ)
    (htraj : ∀ t, traj t = (xp, fun _ => 0))
    (h3 : xp 3 = 0) (h4 : xp 4 = 0) :
    ∀ i, simulate traj (embedState xp) dt i = embedState xp := by
  intro i
  induction i with
  | zero => rfl
  | succ n ih =>
      show dynamicsB (simulate traj (embedState xp) dt n)
          (uApplied (simulate traj (embedState xp) dt n) (traj n).1 (traj n).2) dt =
        embedState xp
      rw [ih, htraj n]
      rw [show ((xp, fun _ => (0 : ℝ)) : (Fin 5 → ℝ) × (Fin 2 → ℝ)).1 = xp from rfl,
        show ((xp, fun _ => (0 : ℝ)) : (Fin 5 → ℝ) × (Fin 2 → ℝ)).2 = fun _ => 0 from rfl,
        uApplied_hold]
      exact dynamicsB_rest _ _ h3 rfl h4

/-- Claim C6 witness: the amended theorem at the concrete start [5, 7, 0, 0, 0]
(zero velocities) with dt = 1 at step 3. -/
theorem C6_witness : simulate trajW (embedState xpW) 1 3 = embedState xpW :=
  C6_amended trajW xpW 1 (fun _ => rfl) rfl rfl 3

/-- Claim C7 fails as stated on the heading channel: with bias 1.0 on channel
2 the sampler still does not return the heading of the goal, because the
heading channel is unconditionally overwritten with the bearing to the goal
plus noise after the snapping loop.  Here the bearing is 0 and the noise term
is 30° · 1 = π/6, while the heading channel of the goal is 5. -/
theorem C7_counterexample :
    biasC7 2 = 1 ∧
    xrand_gen pgoalC7 gC7 zero5 zero5 zero5 biasC7 zero5 0 1 zero5 2 ≠ pgoalC7 2 := by
  refine ⟨rfl, ?_⟩
  intro h
  have hval : xrand_gen pgoalC7 gC7 zero5 zero5 zero5 biasC7 zero5 0 1 zero5 2 =
      atan2 (gC7 1 - zero5 1) (gC7 0 - zero5 0) + deg2rad 30 * 1 :=
    Function.update_same _ _ _
  rw [hval] at h
  rw [show gC7 1 - zero5 1 = 0 by norm_num [gC7, zero5],
    show gC7 0 - zero5 0 = 1 by norm_num [gC7, zero5],
    atan2_zero_one] at h
  rw [show pgoalC7 2 = 5 from rfl] at h
  unfold deg2rad at h
  have hpi := Real.pi_lt_d2
  have := Real.pi_pos
  rw [zero_add, mul_one] at h
  nlinarith

/-- Claim C7 amended: for every state channel other than the heading channel
(index 2) whose bias parameter is 1.0, and for every outcome of the random
draws (the shared snap draw r lies in [0, 1)), the candidate returned by the
sampler has that channel exactly equal to the corresponding channel of the
goal held by the planner. -/
theorem C7_amended (pgoal g x0 sbSpans sbOffsets bias draws : Fin 5 → ℝ)
    (r noise : ℝ) (closest : Fin 5 → ℝ) (i : Fin 5) (hi : i ≠ 2)
    (hb : bias i = 1) (hr0 : 0 ≤ r) (hr1 : r < 1) :
    xrand_gen pgoal g x0 sbSpans sbOffsets bias draws r noise closest i = pgoal i := by
  unfold xrand_gen
  rw [Function.update_noteq hi, hb, if_pos hr1]

/-- Claim C7 witness: the amended theorem on channel 0 with bias 1 and snap
draw 1/2. -/
theorem C7_witness :
    xrand_gen pgoalC7 gC7 zero5 zero5 zero5 biasC7 zero5 (1 / 2) 1 zero5 0 = pgoalC7 0 :=
  C7_amended pgoalC7 gC7 zero5 zero5 zero5 biasC7 zero5 (1 / 2) 1 zero5 0
    (by decide) rfl (by norm_num) (by norm_num)

/-- Claim C8 fails as stated: the Model B dynamics step writes the saturated
control back into its control argument, so calling it with [1000, 0, 0]
(axis-0 magnitude above u_max) leaves the control array of the caller changed. -/
theorem C8_counterexample : uAfterB uBig ≠ uBig := by
  intro h
  have h0 := congrFun h 0
  have hb : uBig 0 = 1000 := rfl
  have hs : Real.sqrt 2 < 3 / 2 := by
    rw [show (3 : ℝ) / 2 = Real.sqrt ((3 / 2) ^ 2) from
      (Real.sqrt_sq (by norm_num)).symm]
    apply Real.sqrt_lt_sqrt (by norm_num)
    norm_num
  have hlt : u_maxB 0 < |uBig 0| := by
    rw [hb]
    show 2 * Real.sqrt 2 * thrust_max < |(1000 : ℝ)|
    rw [abs_of_pos (by norm_num)]
    unfold thrust_max
    nlinarith
  rw [show uAfterB uBig 0 = satB uBig 0 from rfl] at h0
  unfold satB at h0
  rw [if_pos hlt, hb, Real.sign_of_pos (by norm_num : (0 : ℝ) < 1000), mul_one] at h0
  show False
  have hbig : u_maxB 0 < 1000 := by
    show 2 * Real.sqrt 2 * thrust_max < 1000
    unfold thrust_max
    nlinarith
  rw [h0] at hbig
  exact lt_irrefl _ hbig

/-- Claim C8 amended: the Model B dynamics step leaves its control argument
unchanged exactly on in-range controls: if the magnitude of every component is
within its per-axis maximum, the control array after the call equals the input
(out-of-range components are overwritten with the saturated values, as the
counterexample shows; the other kernel functions allocate fresh outputs and
leave their arguments untouched). -/
theorem C8_amended (u : Fin 3 → ℝ) (h : ∀ i, |u i| ≤ u_maxB i) : uAfterB u = u := by
  funext i
  show satB u i = u i
  unfold satB
  rw [if_neg (not_lt.mpr (h i))]

/-- Claim C8 witness: the zero control is within all bounds and survives a
Model B call unchanged. -/
theorem C8_witness : uAfterB uSmall = uSmall :=
  C8_amended uSmall (fun i => by
    rw [show uSmall i = 0 from rfl, abs_zero]
    exact u_maxB_nonneg i)

/-- Claim C9 fails as stated for Model B: in the Model B policy the cost-to-go
matrix weights the heading channel (entry (2,2) = 0) strictly below a velocity
channel (entry (3,3) = 0.05), so the weights are not progressively lower from
position over heading to velocity. -/
theorem C9_counterexample :
    (lqrB (fun _ => 0)).1 2 2 < (lqrB (fun _ => 0)).1 3 3 := by
  show Matrix.diagonal ![(1 : ℝ), 1, 0, 1 / 20, 1 / 20, 0] 2 2 <
    Matrix.diagonal ![(1 : ℝ), 1, 0, 1 / 20, 1 / 20, 0] 3 3
  rw [Matrix.diagonal_apply_eq, Matrix.diagonal_apply_eq]
  norm_num

/-- Claim C9 amended: for each model the cost-to-go matrix S returned by the
policy is the same fixed diagonal matrix for every input state, with the
position channels weighted highest; the heading and velocity weights of
Model A decrease progressively (0.1, 0.01, 0.001), while the heading and
yaw-rate weights of Model B are zero and so lie below its linear-velocity
weights (0.05). -/
theorem C9_amended (x y : Fin 5 → ℝ) (w z : Fin 6 → ℝ) :
    (lqrA x).1 = (lqrA y).1 ∧ (lqrB w).1 = (lqrB z).1 ∧
    (lqrA x).1 = Matrix.diagonal ![1, 1, 1 / 10, 1 / 100, 1 / 1000] ∧
    (lqrB w).1 = Matrix.diagonal ![1, 1, 0, 1 / 20, 1 / 20, 0] ∧
    (lqrA x).1 2 2 < (lqrA x).1 0 0 ∧ (lqrA x).1 3 3 < (lqrA x).1 2 2 ∧
    (lqrA x).1 4 4 < (lqrA x).1 3 3 ∧
    (lqrB w).1 3 3 < (lqrB w).1 0 0 ∧ (lqrB w).1 2 2 = 0 ∧
    (lqrB w).1 2 2 < (lqrB w).1 3 3 := by
  refine ⟨rfl, rfl, rfl, rfl, ?_, ?_, ?_, ?_, ?_, ?_⟩ <;>
    simp [lqrA, lqrB, Matrix.diagonal_apply_eq] <;> norm_num

/-- Claim C10: the error metric returns exactly the zero vector when goal and
state are identical; in particular the heading channel is exactly zero. -/
theorem C10_erf_self (x : Fin 5 → ℝ) : erf x x = 0 := by
  funext i
  by_cases h : i = (2 : Fin 5)
  · subst h
    show erf x x 2 = 0
    unfold erf
    rw [Function.update_same]
    have e1 : Real.sin (x 2) * Real.cos (x 2) - Real.cos (x 2) * Real.sin (x 2) = 0 := by ring
    have e2 : Real.cos (x 2) * Real.cos (x 2) + Real.sin (x 2) * Real.sin (x 2) = 1 := by
      have := Real.sin_sq_add_cos_sq (x 2)
      nlinarith
    rw [e1, e2, atan2_zero_one]
  · show erf x x i = 0
    unfold erf
    rw [Function.update_noteq h]
    simp

end
